import Mathlib

/-!
Verification of the vehicle-telemetry monitor: shallow embedding of
`backend/analytics/health_analyzer.py`, `backend/simulator/vehicle_simulator.py`
and `backend/api/vehicle_routes.py`, with the health-rule, simulator-clamp and
lifecycle properties proved against it.

Python floats are modelled as rationals (`ℚ`); every threshold and bound that
appears in the rules (25.0, 5.0, 100, 140, ...) is exactly representable, so
the strict/non-strict comparisons of the rules are faithful.  The
nondeterminism of `uuid.uuid4()` is modelled by an explicit id source
`sup : ℕ → String` consumed left to right, and `random.*` draws by an explicit
`TickDraws` record per tick.
-/

attribute [local semireducible] Rat.add Rat.mul Rat.sub Rat.inv Rat.ofScientific

namespace VehicleDiagnostics

/-- Banker's rounding to an integer (Python's `round` / float formatting
rounds half to even). -/
def roundHalfEven (q : ℚ) : ℤ :=
  let f := q.floor
  let r := q - f
  if r < 1/2 then f
  else if 1/2 < r then f + 1
  else if f % 2 = 0 then f else f + 1

/-- Python's `round(x, 1)`: round to one decimal place, half to even. -/
def pyRound1 (q : ℚ) : ℚ := (roundHalfEven (10 * q) : ℚ) / 10

/-- Python's `f"{q:.1f}"` on the nonnegative values used in alert messages. -/
def fmt1 (q : ℚ) : String :=
  let n := roundHalfEven (10 * q)
  (if n < 0 then "-" else "") ++ toString (n.natAbs / 10) ++ "." ++ toString (n.natAbs % 10)

/-! ### Data model (`backend/models/telemetry.py`, reconstructed from usage) -/

/-- `BatteryHealth` pydantic model. -/
structure BatteryHealth where
  soc : ℚ
  voltage : ℚ := 400
  temperature : ℚ := 25
  health_status : String := "Good"
deriving DecidableEq, Repr

/-- `TireStatus` pydantic model. -/
structure TireStatus where
  front_left : ℚ
  front_right : ℚ
  rear_left : ℚ
  rear_right : ℚ
deriving DecidableEq, Repr

/-- `VehicleTelemetry` pydantic model: one full snapshot. -/
structure VehicleTelemetry where
  timestamp : String
  speed : ℚ
  battery : BatteryHealth
  tires : TireStatus
  odometer : ℚ := 0
  engine_status : String := "running"
deriving DecidableEq, Repr

/-- `AlertSeverity` enum. -/
inductive AlertSeverity where
  | WARNING
  | CRITICAL
deriving DecidableEq, Repr

/-- `AlertModel` pydantic model. -/
structure AlertModel where
  id : String
  alert_type : String
  severity : AlertSeverity
  message : String
  signal : String
  value : ℚ
  threshold : String
  timestamp : String
deriving DecidableEq, Repr

/-- One entry of `store.battery_history`: a dict with `timestamp` and `soc`. -/
structure BatteryEntry where
  timestamp : ℚ
  soc : ℚ
deriving DecidableEq, Repr

/-- One entry of `store.speed_history`: a dict with `timestamp` and `speed`. -/
structure SpeedEntry where
  timestamp : ℚ
  speed : ℚ
deriving DecidableEq, Repr

/-- The part of the data store the analyzer reads (`store.battery_history`,
`store.speed_history`), as in `tests/test_analytics.py`'s `MockStore`. -/
structure DataStore where
  battery_history : List BatteryEntry
  speed_history : List SpeedEntry
deriving DecidableEq, Repr

instance {α : Type} (p : α → Prop) [DecidablePred p] (l : List α) :
    Decidable (∀ x ∈ l, p x) :=
  decidable_of_iff ((l.all fun x => decide (p x)) = true) (by simp)

/-! ### HealthAnalyzer (`backend/analytics/health_analyzer.py`) -/

/-- The `tire_map` dict of `_check_tire_pressure`, in insertion order:
signal id, display label, pressure. -/
def tire_map (t : TireStatus) : List (String × String × ℚ) :=
  [("tire_pressure_fl", "Front Left", t.front_left),
   ("tire_pressure_fr", "Front Right", t.front_right),
   ("tire_pressure_rl", "Rear Left", t.rear_left),
   ("tire_pressure_rr", "Rear Right", t.rear_right)]

/-- The tire alert constructed at line 65-74 of `health_analyzer.py`. -/
def mkTireAlert (timestamp : String) (fresh : String)
    (signal_id label : String) (pressure : ℚ) : AlertModel :=
  { id := fresh
    alert_type := "tire_pressure_low"
    severity := AlertSeverity.CRITICAL
    message := "Possible Tire Failure: " ++ label ++ " tire pressure at "
      ++ fmt1 pressure ++ " PSI (below 25 PSI threshold)"
    signal := signal_id
    value := pressure
    threshold := "< 25 PSI"
    timestamp := timestamp }

/-- The `for signal_id, (label, pressure) in tire_map.items()` loop:
emits one alert per entry with pressure < 25, consuming one fresh id each. -/
def tireLoop (timestamp : String) (sup : ℕ → String) :
    List (String × String × ℚ) → ℕ → List AlertModel × ℕ
  | [], k => ([], k)
  | (signal_id, label, pressure) :: rest, k =>
    if pressure < 25 then
      let a := mkTireAlert timestamp (sup k) signal_id label pressure
      let r := tireLoop timestamp sup rest (k + 1)
      (a :: r.1, r.2)
    else
      tireLoop timestamp sup rest k

/-- `HealthAnalyzer._check_tire_pressure`, with `sup`/`k` the fresh-id source
and the number of `uuid.uuid4()` calls made so far. -/
def check_tire_pressure (t : VehicleTelemetry) (sup : ℕ → String) (k : ℕ) :
    List AlertModel × ℕ :=
  tireLoop t.timestamp sup (tire_map t.tires) k

/-- `HealthAnalyzer._check_battery_degradation`: `fresh` is the id `uuid.uuid4()`
would produce if the alert fires. -/
def check_battery_degradation (t : VehicleTelemetry)
    (battery_history : List BatteryEntry) (fresh : String) : Option AlertModel :=
  if battery_history.length < 2 then none
  else
    match battery_history with
    | [] => none
    | oldest :: _ =>
      let oldest_soc := oldest.soc
      let current_soc := t.battery.soc
      let drop := oldest_soc - current_soc
      if drop > 5 then
        some { id := fresh
               alert_type := "battery_degradation"
               severity := AlertSeverity.CRITICAL
               message := "Battery Degradation Alert: SoC dropped " ++ fmt1 drop
                 ++ "% (from " ++ fmt1 oldest_soc ++ "% to " ++ fmt1 current_soc ++ "%)"
               signal := "battery_soc"
               value := current_soc
               threshold := "> 5% drop in monitoring window"
               timestamp := t.timestamp }
      else none

/-- `HealthAnalyzer._check_high_speed`: `fresh` is the id `uuid.uuid4()` would
produce if the alert fires.  `history[-10:]` with `len ≥ 10` is
`drop (length - 10)`. -/
def check_high_speed (t : VehicleTelemetry)
    (speed_history : List SpeedEntry) (fresh : String) : Option AlertModel :=
  if speed_history.length < 10 then none
  else
    let recent := speed_history.drop (speed_history.length - 10)
    let all_high := recent.all (fun h => decide (h.speed > 100))
    if all_high then
      some { id := fresh
             alert_type := "high_speed_stress"
             severity := AlertSeverity.WARNING
             message := "High Speed Stress Warning: Vehicle sustained speed above 100 km/h (current: "
               ++ fmt1 t.speed ++ " km/h)"
             signal := "speed"
             value := t.speed
             threshold := "> 100 km/h sustained for 10+ seconds"
             timestamp := t.timestamp }
    else none

/-- `HealthAnalyzer.analyze`: run all three rules, in order, returning the
concatenated alert list.  `sup` enumerates the successive `uuid.uuid4()`
results of the call. -/
def analyze (t : VehicleTelemetry) (store : DataStore) (sup : ℕ → String) :
    List AlertModel :=
  let tires := check_tire_pressure t sup 0
  let battery := check_battery_degradation t store.battery_history (sup tires.2)
  let k2 := tires.2 + battery.toList.length
  let speed := check_high_speed t store.speed_history (sup k2)
  tires.1 ++ battery.toList ++ speed.toList

/-- An alert with its fresh random id erased: the part of an alert that is a
function of the snapshot and store alone. -/
def eraseId (a : AlertModel) : AlertModel := { a with id := "" }

/-! ### VehicleSimulator (`backend/simulator/vehicle_simulator.py`) -/

/-- The `random.*` draws consumed by one `_generate_telemetry` call, plus the
`datetime.utcnow().isoformat()` timestamp. -/
structure TickDraws where
  flipDraw : ℚ
  speedDelta : ℚ
  plateauSpeed : ℚ
  socDecay : ℚ
  rapidDraw : ℚ
  rapidDrop : ℚ
  tempNoise : ℚ
  dFl : ℚ
  dFr : ℚ
  dRl : ℚ
  dRr : ℚ
  tireDraw : ℚ
  tireChoice : ℕ
  tireDrop : ℚ
  timestamp : String
deriving DecidableEq, Repr

/-- Each draw lies in the range of the `random.random()` / `random.uniform` /
`random.choice` call that produced it. -/
def ValidDraws (d : TickDraws) : Prop :=
  0 ≤ d.flipDraw ∧ d.flipDraw < 1
  ∧ 1 ≤ d.speedDelta ∧ d.speedDelta ≤ 5
  ∧ 105 ≤ d.plateauSpeed ∧ d.plateauSpeed ≤ 130
  ∧ 1/20 ≤ d.socDecay ∧ d.socDecay ≤ 1/5
  ∧ 0 ≤ d.rapidDraw ∧ d.rapidDraw < 1
  ∧ 5 ≤ d.rapidDrop ∧ d.rapidDrop ≤ 8
  ∧ -2 ≤ d.tempNoise ∧ d.tempNoise ≤ 5
  ∧ -(1/10) ≤ d.dFl ∧ d.dFl ≤ 1/10
  ∧ -(1/10) ≤ d.dFr ∧ d.dFr ≤ 1/10
  ∧ -(1/10) ≤ d.dRl ∧ d.dRl ≤ 1/10
  ∧ -(1/10) ≤ d.dRr ∧ d.dRr ≤ 1/10
  ∧ 0 ≤ d.tireDraw ∧ d.tireDraw < 1
  ∧ d.tireChoice < 4
  ∧ 8 ≤ d.tireDrop ∧ d.tireDrop ≤ 15

instance (d : TickDraws) : Decidable (ValidDraws d) := by
  unfold ValidDraws; infer_instance

/-- The simulator's internal physical-state variables (`self._speed`,
`self._battery_soc`, ..., `self._speed_direction`, `self._tick_count`). -/
structure SimState where
  speed : ℚ
  battery_soc : ℚ
  battery_voltage : ℚ
  battery_temp : ℚ
  tire_fl : ℚ
  tire_fr : ℚ
  tire_rl : ℚ
  tire_rr : ℚ
  odometer : ℚ
  speed_direction : ℤ
  tick_count : ℕ
deriving DecidableEq, Repr

/-- The state set by `VehicleSimulator.__init__`. -/
def initState : SimState :=
  { speed := 0
    battery_soc := 95
    battery_voltage := 400
    battery_temp := 25
    tire_fl := 32
    tire_fr := 31.5
    tire_rl := 31.8
    tire_rr := 32.2
    odometer := 15000
    speed_direction := 1
    tick_count := 0 }

/-- The speed-plateau condition of line 147:
`self._tick_count % 50 < 15 and self._tick_count > 20`. -/
def plateauActive (tick_count : ℕ) : Bool :=
  decide (tick_count % 50 < 15 ∧ tick_count > 20)

/-- The `random.choice(["fl","fr","rl","rr"])` branch of the sudden-drop
event, with the chosen tire as an index 0..3. -/
def applyTireDrop (choice : ℕ) (drop fl fr rl rr : ℚ) : ℚ × ℚ × ℚ × ℚ :=
  if choice = 0 then (fl - drop, fr, rl, rr)
  else if choice = 1 then (fl, fr - drop, rl, rr)
  else if choice = 2 then (fl, fr, rl - drop, rr)
  else (fl, fr, rl, rr - drop)

/-- The direction-flip step of the speed section (line 140-141). -/
def newDirection (s : SimState) (d : TickDraws) : ℤ :=
  if d.flipDraw < 1/20 then -s.speed_direction else s.speed_direction

/-- The speed section of `_generate_telemetry` (lines 138-148): random walk
clamped to [0, 140], then the periodic plateau override. -/
def newSpeed (s : SimState) (d : TickDraws) : ℚ :=
  let speed_delta := d.speedDelta * (newDirection s d : ℚ)
  let speed1 := max 0 (min 140 (s.speed + speed_delta))
  if plateauActive s.tick_count then d.plateauSpeed else speed1

/-- The battery-SoC section of `_generate_telemetry` (lines 150-159): gradual
decay, optional rapid-drop event, clamp to [5, 100]. -/
def newSoc (s : SimState) (d : TickDraws) : ℚ :=
  let soc1 := s.battery_soc - d.socDecay
  let soc2 := if d.rapidDraw < 1/50 then soc1 - d.rapidDrop else soc1
  max 5 (min 100 soc2)

/-- The tire section of `_generate_telemetry` (lines 169-194): per-tire random
walk, optional sudden-drop event on one chosen tire, clamp to [15, 40]. -/
def newTires (s : SimState) (d : TickDraws) : ℚ × ℚ × ℚ × ℚ :=
  let fl1 := s.tire_fl + d.dFl
  let fr1 := s.tire_fr + d.dFr
  let rl1 := s.tire_rl + d.dRl
  let rr1 := s.tire_rr + d.dRr
  let dropped :=
    if d.tireDraw < 1/100 then applyTireDrop d.tireChoice d.tireDrop fl1 fr1 rl1 rr1
    else (fl1, fr1, rl1, rr1)
  (max 15 (min 40 dropped.1), max 15 (min 40 dropped.2.1),
   max 15 (min 40 dropped.2.2.1), max 15 (min 40 dropped.2.2.2))

/-- `VehicleSimulator._generate_telemetry`, mutation by mutation; returns the
post-tick state and the emitted snapshot (all snapshot values rounded to one
decimal place). -/
def generate_telemetry (s : SimState) (d : TickDraws) : SimState × VehicleTelemetry :=
  let dir := newDirection s d
  let speed2 := newSpeed s d
  let soc3 := newSoc s d
  let voltage := 350 + (soc3 / 100) * 50
  let temp := 25 + d.tempNoise
  let health_status :=
    if soc3 < 20 then "Low" else if soc3 < 50 then "Fair" else "Good"
  let tires := newTires s d
  let odo := s.odometer + speed2 / 3600
  let s1 : SimState :=
    { speed := speed2
      battery_soc := soc3
      battery_voltage := voltage
      battery_temp := temp
      tire_fl := tires.1
      tire_fr := tires.2.1
      tire_rl := tires.2.2.1
      tire_rr := tires.2.2.2
      odometer := odo
      speed_direction := dir
      tick_count := s.tick_count }
  let t : VehicleTelemetry :=
    { timestamp := d.timestamp
      speed := pyRound1 speed2
      battery :=
        { soc := pyRound1 soc3
          voltage := pyRound1 voltage
          temperature := pyRound1 temp
          health_status := health_status }
      tires :=
        { front_left := pyRound1 tires.1
          front_right := pyRound1 tires.2.1
          rear_left := pyRound1 tires.2.2.1
          rear_right := pyRound1 tires.2.2.2 }
      odometer := pyRound1 odo
      engine_status := "running" }
  (s1, t)

/-- One iteration of `_simulation_loop`: `self._tick_count += 1` then
`_generate_telemetry()`. -/
def simulationTick (s : SimState) (d : TickDraws) : SimState × VehicleTelemetry :=
  generate_telemetry { s with tick_count := s.tick_count + 1 } d

/-- The snapshots emitted by running the loop over a list of per-tick draws. -/
def runTicks (s : SimState) : List TickDraws → List VehicleTelemetry
  | [] => []
  | d :: ds =>
    let r := simulationTick s d
    r.2 :: runTicks r.1 ds

/-- The clamp invariant the spec demands of every emitted snapshot. -/
def SnapshotBounds (t : VehicleTelemetry) : Prop :=
  0 ≤ t.speed ∧ t.speed ≤ 140
  ∧ 5 ≤ t.battery.soc ∧ t.battery.soc ≤ 100
  ∧ 15 ≤ t.tires.front_left ∧ t.tires.front_left ≤ 40
  ∧ 15 ≤ t.tires.front_right ∧ t.tires.front_right ≤ 40
  ∧ 15 ≤ t.tires.rear_left ∧ t.tires.rear_left ≤ 40
  ∧ 15 ≤ t.tires.rear_right ∧ t.tires.rear_right ≤ 40

instance (t : VehicleTelemetry) : Decidable (SnapshotBounds t) := by
  unfold SnapshotBounds; infer_instance

/-! ### Simulator lifecycle (`VehicleSimulator.start` / `VehicleSimulator.stop`) -/

/-- `SimulationStatus` pydantic model (`start_time` optional). -/
structure SimulationStatus where
  running : Bool
  tick_count : ℕ
  start_time : Option String := none
  message : String
deriving DecidableEq, Repr

/-- The lifecycle-relevant fields of a `VehicleSimulator`: `self._running`,
`self._tick_count`, whether `self._task` is set, and `self.store.simulation`. -/
structure SimulatorCtl where
  running : Bool
  tick_count : ℕ
  hasTask : Bool
  simulation : SimulationStatus
deriving DecidableEq, Repr

/-- `VehicleSimulator.start`, with `now` standing for
`datetime.utcnow().isoformat()`; returns the new state and the returned status. -/
def SimulatorCtl.start (sim : SimulatorCtl) (now : String) :
    SimulatorCtl × SimulationStatus :=
  if sim.running then
    (sim, { running := true
            tick_count := sim.tick_count
            start_time := sim.simulation.start_time
            message := "Simulator already running" })
  else
    let st : SimulationStatus :=
      { running := true
        tick_count := 0
        start_time := some now
        message := "Simulator started" }
    ({ running := true, tick_count := 0, hasTask := true, simulation := st }, st)

/-- `VehicleSimulator.stop`: returns the new state and the returned status. -/
def SimulatorCtl.stop (sim : SimulatorCtl) : SimulatorCtl × SimulationStatus :=
  if ¬sim.running then
    (sim, { running := false
            tick_count := sim.tick_count
            message := "Simulator not running" })
  else
    let st : SimulationStatus :=
      { running := false
        tick_count := sim.tick_count
        message := "Simulator stopped after " ++ toString sim.tick_count ++ " ticks" }
    ({ running := false, tick_count := sim.tick_count, hasTask := false,
       simulation := st }, st)

/-! ### Alerts query (`backend/api/vehicle_routes.py` `get_alerts`) -/

/-- Modelled from the spec: `backend/services/data_store.py` is not under
`src/`; the spec says `get_alerts(limit)` "returns the most recent `limit`
alerts, most-recent-first" from the alert log kept "newest last". -/
def storeGetAlerts (alert_log : List AlertModel) (limit : ℕ) : List AlertModel :=
  alert_log.reverse.take limit

/-- The `/vehicle/alerts` route: `limit` is an optional query parameter with
default 50, validated by FastAPI to `ge=1, le=200` (a value outside that range
is rejected with a 422, modelled as `none`). -/
def routeGetAlerts (alert_log : List AlertModel) (limit : Option ℤ) :
    Option (List AlertModel) :=
  let l := limit.getD 50
  if 1 ≤ l ∧ l ≤ 200 then some (storeGetAlerts alert_log l.toNat) else none

/-- The alerts of one `analyze` call that carry a given `alert_type`. -/
def alertsOf (t : VehicleTelemetry) (store : DataStore) (sup : ℕ → String)
    (ty : String) : List AlertModel :=
  (analyze t store sup).filter (fun a => a.alert_type == ty)

/-! ## Helper lemmas about the analyzer -/

/-- Every alert produced by the tire loop comes from an entry of the list whose
pressure is below 25, and is exactly the alert the loop builds for it. -/
theorem tireLoop_mem (ts : String) (sup : ℕ → String) :
    ∀ (entries : List (String × String × ℚ)) (k : ℕ) (a : AlertModel),
      a ∈ (tireLoop ts sup entries k).1 →
      ∃ e ∈ entries, e.2.2 < 25 ∧ a = mkTireAlert ts a.id e.1 e.2.1 e.2.2
  | [], _, a, h => by simp [tireLoop] at h
  | (sid, label, p) :: rest, k, a, h => by
    by_cases hp : p < 25
    · simp only [tireLoop, if_pos hp, List.mem_cons] at h
      rcases h with h | h
      · refine ⟨(sid, label, p), by simp, hp, ?_⟩
        subst h
        rfl
      · obtain ⟨e, he, hlt, ha⟩ := tireLoop_mem ts sup rest (k + 1) a h
        exact ⟨e, List.mem_cons_of_mem _ he, hlt, ha⟩
    · simp only [tireLoop, if_neg hp] at h
      obtain ⟨e, he, hlt, ha⟩ := tireLoop_mem ts sup rest k a h
      exact ⟨e, List.mem_cons_of_mem _ he, hlt, ha⟩

/-- The number of alerts the tire loop emits for a given signal id equals the
number of matching entries whose pressure is below 25. -/
theorem tireLoop_filter_sig (ts : String) (sup : ℕ → String) (sid : String) :
    ∀ (entries : List (String × String × ℚ)) (k : ℕ),
      ((tireLoop ts sup entries k).1.filter (fun a => a.signal == sid)).length
        = (entries.filter (fun e => e.1 == sid && decide (e.2.2 < 25))).length
  | [], _ => by simp [tireLoop]
  | (s, label, p) :: rest, k => by
    by_cases hp : p < 25
    · simp only [tireLoop, if_pos hp]
      by_cases hs : s = sid
      · subst hs
        simp [List.filter_cons, mkTireAlert, hp,
          tireLoop_filter_sig ts sup s rest (k + 1)]
      · simp [List.filter_cons, mkTireAlert, hp, hs,
          tireLoop_filter_sig ts sup sid rest (k + 1)]
    · by_cases hs : s = sid
      · subst hs
        simp [tireLoop, if_neg hp, List.filter_cons, hp,
          tireLoop_filter_sig ts sup s rest k]
      · simp [tireLoop, if_neg hp, List.filter_cons, hp, hs,
          tireLoop_filter_sig ts sup sid rest k]

/-- The tire loop emits at most one alert per entry. -/
theorem tireLoop_length_le (ts : String) (sup : ℕ → String) :
    ∀ (entries : List (String × String × ℚ)) (k : ℕ),
      (tireLoop ts sup entries k).1.length ≤ entries.length
  | [], _ => by simp [tireLoop]
  | (s, label, p) :: rest, k => by
    by_cases hp : p < 25
    · simpa [tireLoop, if_pos hp, Nat.succ_le_succ_iff]
        using tireLoop_length_le ts sup rest (k + 1)
    · simp only [tireLoop, if_neg hp, List.length_cons]
      exact Nat.le_succ_of_le (tireLoop_length_le ts sup rest k)

/-- Field-level consequence of `tireLoop_mem`. -/
theorem tireLoop_mem_fields (ts : String) (sup : ℕ → String)
    (entries : List (String × String × ℚ)) (k : ℕ) (a : AlertModel)
    (h : a ∈ (tireLoop ts sup entries k).1) :
    ∃ e ∈ entries, e.2.2 < 25 ∧ a.alert_type = "tire_pressure_low"
      ∧ a.severity = AlertSeverity.CRITICAL ∧ a.signal = e.1 ∧ a.value = e.2.2
      ∧ a.threshold = "< 25 PSI" ∧ a.timestamp = ts := by
  obtain ⟨e, he, hlt, hae⟩ := tireLoop_mem ts sup entries k a h
  exact ⟨e, he, hlt, by rw [hae]; rfl, by rw [hae]; rfl, by rw [hae]; rfl,
    by rw [hae]; rfl, by rw [hae]; rfl, by rw [hae]; rfl⟩

/-! ## C1: the tire-pressure rule -/

/-- C1: for every telemetry snapshot, the tire-pressure rule emits exactly one
CRITICAL alert of type `tire_pressure_low` for each of the four tire positions
whose pressure is strictly below 25.0 PSI, carrying that position's signal id,
its pressure value and the threshold text "< 25 PSI"; a tire at exactly
25.0 PSI emits no alert. -/
theorem C1_tire_pressure_rule (t : VehicleTelemetry) (sup : ℕ → String) (k : ℕ)
    (sid label : String) (p : ℚ)
    (he : (sid, label, p) ∈ tire_map t.tires) :
    (((check_tire_pressure t sup k).1.filter (fun a => a.signal == sid)).length
        = if p < 25 then 1 else 0)
    ∧ (∀ a ∈ (check_tire_pressure t sup k).1, a.signal = sid →
        a.alert_type = "tire_pressure_low" ∧ a.severity = AlertSeverity.CRITICAL
          ∧ a.value = p ∧ a.threshold = "< 25 PSI" ∧ a.timestamp = t.timestamp)
    ∧ (p = 25 →
        ((check_tire_pressure t sup k).1.filter (fun a => a.signal == sid)) = []) := by
  have hcnt : (((check_tire_pressure t sup k).1.filter (fun a => a.signal == sid)).length
      = if p < 25 then 1 else 0) := by
    rw [check_tire_pressure, tireLoop_filter_sig]
    simp only [tire_map, List.mem_cons, List.not_mem_nil, or_false,
      Prod.mk.injEq] at he
    rcases he with ⟨rfl, rfl, rfl⟩ | ⟨rfl, rfl, rfl⟩ | ⟨rfl, rfl, rfl⟩ | ⟨rfl, rfl, rfl⟩ <;>
      (simp [tire_map, List.filter_cons]; split_ifs <;> simp)
  refine ⟨hcnt, ?_, ?_⟩
  · intro a ha hsig
    obtain ⟨e, heMem, hlt, h1, h2, h3, h4, h5, h6⟩ :=
      tireLoop_mem_fields t.timestamp sup (tire_map t.tires) k a ha
    simp only [tire_map, List.mem_cons, List.not_mem_nil, or_false,
      Prod.mk.injEq] at he heMem
    rcases he with ⟨rfl, rfl, rfl⟩ | ⟨rfl, rfl, rfl⟩ | ⟨rfl, rfl, rfl⟩ | ⟨rfl, rfl, rfl⟩ <;>
      rcases heMem with rfl | rfl | rfl | rfl <;>
      simp_all
  · intro hp
    subst hp
    rw [if_neg (lt_irrefl 25)] at hcnt
    exact List.length_eq_zero.mp hcnt

/-- Witness for C1 at a concrete snapshot: front-left tire at 20 PSI fires
exactly one alert on its signal, rear-right at exactly 25 fires none. -/
theorem C1_witness :
    ((20 : ℚ), (32 : ℚ), (31 : ℚ), (25 : ℚ)) = (20, 32, 31, 25)
    ∧ (((check_tire_pressure
          { timestamp := "ts", speed := 60, battery := { soc := 85 },
            tires := { front_left := 20, front_right := 32,
                       rear_left := 31, rear_right := 25 } }
          (fun n => toString n) 0).1.filter
            (fun a => a.signal == "tire_pressure_fl")).length
        = if (20 : ℚ) < 25 then 1 else 0)
    ∧ (((check_tire_pressure
          { timestamp := "ts", speed := 60, battery := { soc := 85 },
            tires := { front_left := 20, front_right := 32,
                       rear_left := 31, rear_right := 25 } }
          (fun n => toString n) 0).1.filter
            (fun a => a.signal == "tire_pressure_rr")) = []) :=
  ⟨rfl,
   (C1_tire_pressure_rule
      { timestamp := "ts", speed := 60, battery := { soc := 85 },
        tires := { front_left := 20, front_right := 32,
                   rear_left := 31, rear_right := 25 } }
      (fun n => toString n) 0 "tire_pressure_fl" "Front Left" 20
      (by simp [tire_map])).1,
   (C1_tire_pressure_rule
      { timestamp := "ts", speed := 60, battery := { soc := 85 },
        tires := { front_left := 20, front_right := 32,
                   rear_left := 31, rear_right := 25 } }
      (fun n => toString n) 0 "tire_pressure_rr" "Rear Right" 25
      (by simp [tire_map])).2.2 rfl⟩

/-! ## Helper lemmas about the battery and speed rules -/

/-- With fewer than 2 history entries the battery check returns nothing. -/
theorem check_battery_none_of_short (t : VehicleTelemetry)
    (hist : List BatteryEntry) (fresh : String) (h : hist.length < 2) :
    check_battery_degradation t hist fresh = none := by
  unfold check_battery_degradation
  rw [if_pos h]

/-- With at least 2 history entries the battery check compares the oldest entry
against the current SoC. -/
theorem check_battery_eq_of_long (t : VehicleTelemetry) (oldest : BatteryEntry)
    (rest : List BatteryEntry) (fresh : String)
    (h : 2 ≤ (oldest :: rest).length) :
    check_battery_degradation t (oldest :: rest) fresh =
      if oldest.soc - t.battery.soc > 5 then
        some { id := fresh
               alert_type := "battery_degradation"
               severity := AlertSeverity.CRITICAL
               message := "Battery Degradation Alert: SoC dropped "
                 ++ fmt1 (oldest.soc - t.battery.soc)
                 ++ "% (from " ++ fmt1 oldest.soc ++ "% to " ++ fmt1 t.battery.soc ++ "%)"
               signal := "battery_soc"
               value := t.battery.soc
               threshold := "> 5% drop in monitoring window"
               timestamp := t.timestamp }
      else none := by
  unfold check_battery_degradation
  rw [if_neg (by omega)]

/-- Every alert the battery check returns has the battery-rule fields. -/
theorem battery_some_fields (t : VehicleTelemetry) (hist : List BatteryEntry)
    (fresh : String) (a : AlertModel)
    (h : check_battery_degradation t hist fresh = some a) :
    a.alert_type = "battery_degradation" ∧ a.severity = AlertSeverity.CRITICAL
      ∧ a.signal = "battery_soc" ∧ a.value = t.battery.soc
      ∧ a.threshold = "> 5% drop in monitoring window" ∧ a.timestamp = t.timestamp
      ∧ a.id = fresh := by
  rcases hist with _ | ⟨oldest, rest⟩
  · simp [check_battery_degradation] at h
  · by_cases hl : (oldest :: rest).length < 2
    · rw [check_battery_none_of_short t _ fresh hl] at h
      exact absurd h (by simp)
    · rw [check_battery_eq_of_long t oldest rest fresh (by omega)] at h
      by_cases hd : oldest.soc - t.battery.soc > 5
      · rw [if_pos hd] at h
        obtain rfl := (Option.some_inj.mp h).symm
        exact ⟨rfl, rfl, rfl, rfl, rfl, rfl, rfl⟩
      · rw [if_neg hd] at h
        exact absurd h (by simp)

/-- With fewer than 10 history entries the speed check returns nothing. -/
theorem check_speed_none_of_short (t : VehicleTelemetry) (hist : List SpeedEntry)
    (fresh : String) (h : hist.length < 10) :
    check_high_speed t hist fresh = none := by
  unfold check_high_speed
  rw [if_pos h]

/-- With at least 10 entries all of whose last 10 exceed 100 km/h, the speed
check fires. -/
theorem check_speed_fires (t : VehicleTelemetry) (hist : List SpeedEntry)
    (fresh : String) (hl : ¬hist.length < 10)
    (hall : ∀ e ∈ hist.drop (hist.length - 10), 100 < e.speed) :
    check_high_speed t hist fresh =
      some { id := fresh
             alert_type := "high_speed_stress"
             severity := AlertSeverity.WARNING
             message := "High Speed Stress Warning: Vehicle sustained speed above 100 km/h (current: "
               ++ fmt1 t.speed ++ " km/h)"
             signal := "speed"
             value := t.speed
             threshold := "> 100 km/h sustained for 10+ seconds"
             timestamp := t.timestamp } := by
  have hb : (hist.drop (hist.length - 10)).all (fun e => decide (e.speed > 100)) = true := by
    simp only [List.all_eq_true, decide_eq_true_eq]
    exact hall
  unfold check_high_speed
  rw [if_neg hl]
  simp only [hb, if_true]

/-- One window entry at or below 100 km/h suppresses the speed alert. -/
theorem check_speed_none_of_low (t : VehicleTelemetry) (hist : List SpeedEntry)
    (fresh : String) (e : SpeedEntry)
    (he : e ∈ hist.drop (hist.length - 10)) (hle : e.speed ≤ 100) :
    check_high_speed t hist fresh = none := by
  unfold check_high_speed
  by_cases hl : hist.length < 10
  · rw [if_pos hl]
  · rw [if_neg hl]
    have hb : (hist.drop (hist.length - 10)).all (fun e => decide (e.speed > 100)) = false := by
      rw [List.all_eq_false]
      exact ⟨e, he, by simpa using hle⟩
    simp [hb]

/-- Every alert the speed check returns has the speed-rule fields. -/
theorem speed_some_fields (t : VehicleTelemetry) (hist : List SpeedEntry)
    (fresh : String) (a : AlertModel)
    (h : check_high_speed t hist fresh = some a) :
    a.alert_type = "high_speed_stress" ∧ a.severity = AlertSeverity.WARNING
      ∧ a.signal = "speed" ∧ a.value = t.speed
      ∧ a.threshold = "> 100 km/h sustained for 10+ seconds"
      ∧ a.timestamp = t.timestamp ∧ a.id = fresh := by
  by_cases hl : hist.length < 10
  · rw [check_speed_none_of_short t hist fresh hl] at h
    exact absurd h (by simp)
  · by_cases hall : ∀ e ∈ hist.drop (hist.length - 10), 100 < e.speed
    · rw [check_speed_fires t hist fresh hl hall] at h
      obtain rfl := (Option.some_inj.mp h).symm
      exact ⟨rfl, rfl, rfl, rfl, rfl, rfl, rfl⟩
    · push_neg at hall
      obtain ⟨e, he, hle⟩ := hall
      rw [check_speed_none_of_low t hist fresh e he hle] at h
      exact absurd h (by simp)

/-- The list `analyze` returns is the tire alerts, then the optional battery
alert, then the optional speed alert. -/
theorem analyze_decomp (t : VehicleTelemetry) (store : DataStore) (sup : ℕ → String) :
    analyze t store sup = (check_tire_pressure t sup 0).1
      ++ (check_battery_degradation t store.battery_history
            (sup (check_tire_pressure t sup 0).2)).toList
      ++ (check_high_speed t store.speed_history
            (sup ((check_tire_pressure t sup 0).2
              + (check_battery_degradation t store.battery_history
                  (sup (check_tire_pressure t sup 0).2)).toList.length))).toList := rfl

/-- Filtering an `analyze` result for battery alerts leaves exactly the battery
check's output. -/
theorem alertsOf_battery (t : VehicleTelemetry) (store : DataStore) (sup : ℕ → String) :
    alertsOf t store sup "battery_degradation"
      = (check_battery_degradation t store.battery_history
          (sup (check_tire_pressure t sup 0).2)).toList := by
  rw [alertsOf, analyze_decomp, List.filter_append, List.filter_append]
  have hA : (check_tire_pressure t sup 0).1.filter
      (fun a => a.alert_type == "battery_degradation") = [] := by
    rw [List.filter_eq_nil_iff]
    intro a ha
    obtain ⟨e, _, _, h1, _⟩ :=
      tireLoop_mem_fields t.timestamp sup (tire_map t.tires) 0 a ha
    simp [h1]
  have hC : ∀ (hist : List SpeedEntry) (fresh : String),
      (check_high_speed t hist fresh).toList.filter
        (fun a => a.alert_type == "battery_degradation") = [] := by
    intro hist fresh
    cases hs : check_high_speed t hist fresh with
    | none => simp
    | some a =>
      obtain ⟨h1, _⟩ := speed_some_fields t hist fresh a hs
      simp [h1]
  have hB : ∀ (hist : List BatteryEntry) (fresh : String),
      (check_battery_degradation t hist fresh).toList.filter
        (fun a => a.alert_type == "battery_degradation")
        = (check_battery_degradation t hist fresh).toList := by
    intro hist fresh
    cases hb : check_battery_degradation t hist fresh with
    | none => simp
    | some a =>
      obtain ⟨h1, _⟩ := battery_some_fields t hist fresh a hb
      simp [h1]
  rw [hA, hB, hC]
  simp

/-- Filtering an `analyze` result for speed alerts leaves exactly the speed
check's output. -/
theorem alertsOf_speed (t : VehicleTelemetry) (store : DataStore) (sup : ℕ → String) :
    alertsOf t store sup "high_speed_stress"
      = (check_high_speed t store.speed_history
          (sup ((check_tire_pressure t sup 0).2
            + (check_battery_degradation t store.battery_history
                (sup (check_tire_pressure t sup 0).2)).toList.length))).toList := by
  rw [alertsOf, analyze_decomp, List.filter_append, List.filter_append]
  have hA : (check_tire_pressure t sup 0).1.filter
      (fun a => a.alert_type == "high_speed_stress") = [] := by
    rw [List.filter_eq_nil_iff]
    intro a ha
    obtain ⟨e, _, _, h1, _⟩ :=
      tireLoop_mem_fields t.timestamp sup (tire_map t.tires) 0 a ha
    simp [h1]
  have hB : ∀ (hist : List BatteryEntry) (fresh : String),
      (check_battery_degradation t hist fresh).toList.filter
        (fun a => a.alert_type == "high_speed_stress") = [] := by
    intro hist fresh
    cases hb : check_battery_degradation t hist fresh with
    | none => simp
    | some a =>
      obtain ⟨h1, _⟩ := battery_some_fields t hist fresh a hb
      simp [h1]
  have hC : ∀ (hist : List SpeedEntry) (fresh : String),
      (check_high_speed t hist fresh).toList.filter
        (fun a => a.alert_type == "high_speed_stress")
        = (check_high_speed t hist fresh).toList := by
    intro hist fresh
    cases hs : check_high_speed t hist fresh with
    | none => simp
    | some a =>
      obtain ⟨h1, _⟩ := speed_some_fields t hist fresh a hs
      simp [h1]
  rw [hA, hB, hC]
  simp

/-! ## C2: the battery-degradation rule -/

/-- C2: with at least 2 battery-history entries and (oldest − current) > 5.0,
`analyze` emits exactly one CRITICAL `battery_degradation` alert with threshold
"> 5% drop in monitoring window"; with fewer than 2 entries (or a drop of at
most 5) it emits none, whatever the current SoC. -/
theorem C2_battery_rule (t : VehicleTelemetry) (store : DataStore) (sup : ℕ → String) :
    (store.battery_history.length < 2 →
      alertsOf t store sup "battery_degradation" = [])
    ∧ (∀ oldest rest, store.battery_history = oldest :: rest →
        2 ≤ store.battery_history.length →
        (oldest.soc - t.battery.soc > 5 →
          (alertsOf t store sup "battery_degradation").length = 1
          ∧ ∀ a ∈ alertsOf t store sup "battery_degradation",
              a.alert_type = "battery_degradation"
              ∧ a.severity = AlertSeverity.CRITICAL
              ∧ a.threshold = "> 5% drop in monitoring window"
              ∧ a.value = t.battery.soc ∧ a.signal = "battery_soc"
              ∧ a.timestamp = t.timestamp)
        ∧ (oldest.soc - t.battery.soc ≤ 5 →
          alertsOf t store sup "battery_degradation" = [])) := by
  have hd := alertsOf_battery t store sup
  constructor
  · intro hshort
    rw [hd, check_battery_none_of_short t _ _ hshort]
    rfl
  · intro oldest rest hh hlen
    rw [hh] at hlen
    constructor
    · intro hdrop
      rw [hd, hh, check_battery_eq_of_long t oldest rest _ hlen, if_pos hdrop]
      refine ⟨rfl, ?_⟩
      intro a ha
      simp only [Option.toList_some, List.mem_singleton] at ha
      subst ha
      exact ⟨rfl, rfl, rfl, rfl, rfl, rfl⟩
    · intro hle
      rw [hd, hh, check_battery_eq_of_long t oldest rest _ hlen,
        if_neg (not_lt.mpr hle)]
      rfl

/-- Witness for C2: a 7-point drop over history `[90, 87]` yields one battery
alert; a single-entry history yields none even at SoC 5. -/
theorem C2_witness :
    ((alertsOf
        { timestamp := "ts", speed := 60, battery := { soc := 83 },
          tires := { front_left := 32, front_right := 32,
                     rear_left := 32, rear_right := 32 } }
        { battery_history := [⟨0, 90⟩, ⟨10, 87⟩], speed_history := [] }
        (fun n => toString n) "battery_degradation").length = 1)
    ∧ (alertsOf
        { timestamp := "ts", speed := 60, battery := { soc := 5 },
          tires := { front_left := 32, front_right := 32,
                     rear_left := 32, rear_right := 32 } }
        { battery_history := [⟨0, 90⟩], speed_history := [] }
        (fun n => toString n) "battery_degradation") = [] :=
  ⟨((C2_battery_rule
      { timestamp := "ts", speed := 60, battery := { soc := 83 },
        tires := { front_left := 32, front_right := 32,
                   rear_left := 32, rear_right := 32 } }
      { battery_history := [⟨0, 90⟩, ⟨10, 87⟩], speed_history := [] }
      (fun n => toString n)).2 ⟨0, 90⟩ [⟨10, 87⟩] rfl (by decide) |>.1 (by decide)).1,
   (C2_battery_rule
      { timestamp := "ts", speed := 60, battery := { soc := 5 },
        tires := { front_left := 32, front_right := 32,
                   rear_left := 32, rear_right := 32 } }
      { battery_history := [⟨0, 90⟩], speed_history := [] }
      (fun n => toString n)).1 (by decide)⟩

/-! ## C3: the sustained-high-speed rule -/

/-- C3: `analyze` emits exactly one WARNING `high_speed_stress` alert if and
only if the speed history has at least 10 entries and each of its 10 most
recent entries exceeds 100 km/h; a shorter history, or a single window entry at
or below 100, yields no speed alert. -/
theorem C3_speed_rule (t : VehicleTelemetry) (store : DataStore) (sup : ℕ → String) :
    ((alertsOf t store sup "high_speed_stress").length = 1 ↔
      (10 ≤ store.speed_history.length ∧
        ∀ e ∈ store.speed_history.drop (store.speed_history.length - 10),
          100 < e.speed))
    ∧ (∀ a ∈ alertsOf t store sup "high_speed_stress",
        a.alert_type = "high_speed_stress" ∧ a.severity = AlertSeverity.WARNING
        ∧ a.value = t.speed ∧ a.threshold = "> 100 km/h sustained for 10+ seconds"
        ∧ a.timestamp = t.timestamp)
    ∧ (store.speed_history.length < 10 →
        alertsOf t store sup "high_speed_stress" = [])
    ∧ (∀ e ∈ store.speed_history.drop (store.speed_history.length - 10),
        e.speed ≤ 100 → alertsOf t store sup "high_speed_stress" = []) := by
  have hd := alertsOf_speed t store sup
  refine ⟨?_, ?_, ?_, ?_⟩
  · constructor
    · intro h1
      by_cases hl : store.speed_history.length < 10
      · rw [hd, check_speed_none_of_short t _ _ hl] at h1
        exact absurd h1 (by simp)
      · refine ⟨by omega, ?_⟩
        by_cases hall : ∀ e ∈ store.speed_history.drop
            (store.speed_history.length - 10), 100 < e.speed
        · exact hall
        · push_neg at hall
          obtain ⟨e, he, hle⟩ := hall
          rw [hd, check_speed_none_of_low t _ _ e he hle] at h1
          exact absurd h1 (by simp)
    · rintro ⟨hl, hall⟩
      rw [hd, check_speed_fires t _ _ (by omega) hall]
      rfl
  · intro a ha
    rw [hd] at ha
    rcases hs : check_high_speed t store.speed_history
        (sup ((check_tire_pressure t sup 0).2
          + (check_battery_degradation t store.battery_history
              (sup (check_tire_pressure t sup 0).2)).toList.length)) with _ | b
    · rw [hs] at ha
      exact absurd ha (by simp)
    · rw [hs] at ha
      simp only [Option.toList_some, List.mem_singleton] at ha
      subst ha
      obtain ⟨h1, h2, h3, h4, h5, h6, h7⟩ :=
        speed_some_fields t store.speed_history _ a hs
      exact ⟨h1, h2, h4, h5, h6⟩
  · intro hl
    rw [hd, check_speed_none_of_short t _ _ hl]
    rfl
  · intro e he hle
    rw [hd, check_speed_none_of_low t _ _ e he hle]
    rfl

/-- Witness for C3: ten entries at 110 km/h yield one speed alert; nine do not. -/
theorem C3_witness :
    ((alertsOf
        { timestamp := "ts", speed := 115, battery := { soc := 85 },
          tires := { front_left := 32, front_right := 32,
                     rear_left := 32, rear_right := 32 } }
        { battery_history := [],
          speed_history := List.replicate 10 ⟨0, 110⟩ }
        (fun n => toString n) "high_speed_stress").length = 1)
    ∧ (alertsOf
        { timestamp := "ts", speed := 115, battery := { soc := 85 },
          tires := { front_left := 32, front_right := 32,
                     rear_left := 32, rear_right := 32 } }
        { battery_history := [],
          speed_history := List.replicate 9 ⟨0, 110⟩ }
        (fun n => toString n) "high_speed_stress") = [] :=
  ⟨((C3_speed_rule
      { timestamp := "ts", speed := 115, battery := { soc := 85 },
        tires := { front_left := 32, front_right := 32,
                   rear_left := 32, rear_right := 32 } }
      { battery_history := [],
        speed_history := List.replicate 10 ⟨0, 110⟩ }
      (fun n => toString n)).1).mpr (by decide),
   ((C3_speed_rule
      { timestamp := "ts", speed := 115, battery := { soc := 85 },
        tires := { front_left := 32, front_right := 32,
                   rear_left := 32, rear_right := 32 } }
      { battery_history := [],
        speed_history := List.replicate 9 ⟨0, 110⟩ }
      (fun n => toString n)).2.2.1) (by decide)⟩

/-! ## C4: the three rules are evaluated independently -/

/-- C4: when a tire is below 25 PSI, the battery history shows a drop above 5
points from oldest to current, and the last 10 speed entries all exceed
100 km/h, the single `analyze` result contains alerts of all three types. -/
theorem C4_rules_independent (t : VehicleTelemetry) (store : DataStore)
    (sup : ℕ → String)
    (h1 : ∃ e ∈ tire_map t.tires, e.2.2 < 25)
    (h2 : ∃ oldest rest, store.battery_history = oldest :: rest
      ∧ 2 ≤ store.battery_history.length ∧ oldest.soc - t.battery.soc > 5)
    (h3 : 10 ≤ store.speed_history.length ∧
      ∀ e ∈ store.speed_history.drop (store.speed_history.length - 10),
        100 < e.speed) :
    (∃ a ∈ analyze t store sup, a.alert_type = "tire_pressure_low")
    ∧ (∃ a ∈ analyze t store sup, a.alert_type = "battery_degradation")
    ∧ (∃ a ∈ analyze t store sup, a.alert_type = "high_speed_stress") := by
  rw [analyze_decomp]
  refine ⟨?_, ?_, ?_⟩
  · obtain ⟨e, he, hlt⟩ := h1
    have hcnt := tireLoop_filter_sig t.timestamp sup e.1 (tire_map t.tires) 0
    have hmem : e ∈ (tire_map t.tires).filter
        (fun x => x.1 == e.1 && decide (x.2.2 < 25)) :=
      List.mem_filter.mpr ⟨he, by simp [hlt]⟩
    have hpos : 0 < ((tireLoop t.timestamp sup (tire_map t.tires) 0).1.filter
        (fun a => a.signal == e.1)).length := by
      rw [hcnt]
      exact List.length_pos_of_mem hmem
    obtain ⟨a, ha⟩ := List.exists_mem_of_length_pos hpos
    have ha' : a ∈ (tireLoop t.timestamp sup (tire_map t.tires) 0).1 :=
      List.mem_of_mem_filter ha
    obtain ⟨e', _, _, hty, _⟩ :=
      tireLoop_mem_fields t.timestamp sup (tire_map t.tires) 0 a ha'
    exact ⟨a, by simp [check_tire_pressure, ha'], hty⟩
  · obtain ⟨oldest, rest, hh, hlen, hdrop⟩ := h2
    rw [hh] at hlen
    have hb := check_battery_eq_of_long t oldest rest
      (sup (check_tire_pressure t sup 0).2) hlen
    rw [if_pos hdrop] at hb
    obtain ⟨b, hb2⟩ : ∃ b, check_battery_degradation t store.battery_history
        (sup (check_tire_pressure t sup 0).2) = some b := ⟨_, by rw [hh]; exact hb⟩
    refine ⟨b, ?_, (battery_some_fields t _ _ b hb2).1⟩
    rw [hb2]
    simp
  · obtain ⟨hl, hall⟩ := h3
    have hs := check_speed_fires t store.speed_history
      (sup ((check_tire_pressure t sup 0).2
        + (check_battery_degradation t store.battery_history
            (sup (check_tire_pressure t sup 0).2)).toList.length))
      (by omega) hall
    obtain ⟨c, hs2⟩ : ∃ c, check_high_speed t store.speed_history
        (sup ((check_tire_pressure t sup 0).2
          + (check_battery_degradation t store.battery_history
              (sup (check_tire_pressure t sup 0).2)).toList.length)) = some c := ⟨_, hs⟩
    refine ⟨c, ?_, (speed_some_fields t _ _ c hs2).1⟩
    rw [hs2]
    simp

/-- Witness for C4: one concrete input fires all three rules in one call. -/
theorem C4_witness :
    (∃ a ∈ analyze
        { timestamp := "ts", speed := 120, battery := { soc := 70 },
          tires := { front_left := 20, front_right := 32,
                     rear_left := 32, rear_right := 32 } }
        { battery_history := [⟨0, 80⟩, ⟨10, 76⟩],
          speed_history := List.replicate 12 ⟨0, 120⟩ }
        (fun n => toString n), a.alert_type = "tire_pressure_low")
    ∧ (∃ a ∈ analyze
        { timestamp := "ts", speed := 120, battery := { soc := 70 },
          tires := { front_left := 20, front_right := 32,
                     rear_left := 32, rear_right := 32 } }
        { battery_history := [⟨0, 80⟩, ⟨10, 76⟩],
          speed_history := List.replicate 12 ⟨0, 120⟩ }
        (fun n => toString n), a.alert_type = "battery_degradation")
    ∧ (∃ a ∈ analyze
        { timestamp := "ts", speed := 120, battery := { soc := 70 },
          tires := { front_left := 20, front_right := 32,
                     rear_left := 32, rear_right := 32 } }
        { battery_history := [⟨0, 80⟩, ⟨10, 76⟩],
          speed_history := List.replicate 12 ⟨0, 120⟩ }
        (fun n => toString n), a.alert_type = "high_speed_stress") :=
  C4_rules_independent
    { timestamp := "ts", speed := 120, battery := { soc := 70 },
      tires := { front_left := 20, front_right := 32,
                 rear_left := 32, rear_right := 32 } }
    { battery_history := [⟨0, 80⟩, ⟨10, 76⟩],
      speed_history := List.replicate 12 ⟨0, 120⟩ }
    (fun n => toString n)
    ⟨("tire_pressure_fl", "Front Left", 20), by simp [tire_map], by decide⟩
    ⟨⟨0, 80⟩, [⟨10, 76⟩], rfl, by decide, by decide⟩
    (by decide)

/-! ## C10: shape of a single analyze result -/

/-- C10: every `analyze` call returns tire alerts (at most one per position,
at most 4), then at most one battery alert, then at most one speed alert — at
most 6 alerts in total, in that order. -/
theorem C10_analyze_shape (t : VehicleTelemetry) (store : DataStore)
    (sup : ℕ → String) :
    ∃ tires battery speed,
      analyze t store sup = tires ++ battery ++ speed
      ∧ tires.length ≤ 4 ∧ battery.length ≤ 1 ∧ speed.length ≤ 1
      ∧ (∀ a ∈ tires, a.alert_type = "tire_pressure_low")
      ∧ (∀ a ∈ battery, a.alert_type = "battery_degradation")
      ∧ (∀ a ∈ speed, a.alert_type = "high_speed_stress")
      ∧ (∀ e ∈ tire_map t.tires,
          (tires.filter (fun a => a.signal == e.1)).length ≤ 1)
      ∧ (analyze t store sup).length ≤ 6 := by
  refine ⟨(check_tire_pressure t sup 0).1, _, _, analyze_decomp t store sup,
    ?_, ?_, ?_, ?_, ?_, ?_, ?_, ?_⟩
  · simpa [tire_map] using
      tireLoop_length_le t.timestamp sup (tire_map t.tires) 0
  · rcases check_battery_degradation t store.battery_history
      (sup (check_tire_pressure t sup 0).2) with _ | b <;> simp
  · rcases check_high_speed t store.speed_history
      (sup ((check_tire_pressure t sup 0).2
        + (check_battery_degradation t store.battery_history
            (sup (check_tire_pressure t sup 0).2)).toList.length)) with _ | c <;> simp
  · intro a ha
    obtain ⟨e, _, _, hty, _⟩ :=
      tireLoop_mem_fields t.timestamp sup (tire_map t.tires) 0 a ha
    exact hty
  · intro a ha
    rcases hb : check_battery_degradation t store.battery_history
        (sup (check_tire_pressure t sup 0).2) with _ | b
    · rw [hb] at ha
      exact absurd ha (by simp)
    · rw [hb] at ha
      simp only [Option.toList_some, List.mem_singleton] at ha
      subst ha
      exact (battery_some_fields t _ _ a hb).1
  · intro a ha
    rcases hs : check_high_speed t store.speed_history
        (sup ((check_tire_pressure t sup 0).2
          + (check_battery_degradation t store.battery_history
              (sup (check_tire_pressure t sup 0).2)).toList.length)) with _ | c
    · rw [hs] at ha
      exact absurd ha (by simp)
    · rw [hs] at ha
      simp only [Option.toList_some, List.mem_singleton] at ha
      subst ha
      exact (speed_some_fields t _ _ a hs).1
  · intro e he
    have hcnt := tireLoop_filter_sig t.timestamp sup e.1 (tire_map t.tires) 0
    rw [check_tire_pressure, hcnt]
    simp only [tire_map, List.mem_cons, List.not_mem_nil, or_false] at he
    rcases he with rfl | rfl | rfl | rfl <;>
      (simp [tire_map, List.filter_cons]; split_ifs <;> simp)
  · rw [analyze_decomp]
    have h1 : (check_tire_pressure t sup 0).1.length ≤ 4 := by
      simpa [tire_map] using
        tireLoop_length_le t.timestamp sup (tire_map t.tires) 0
    have h2 : (check_battery_degradation t store.battery_history
        (sup (check_tire_pressure t sup 0).2)).toList.length ≤ 1 := by
      rcases check_battery_degradation t store.battery_history
        (sup (check_tire_pressure t sup 0).2) with _ | b <;> simp
    have h3 : (check_high_speed t store.speed_history
        (sup ((check_tire_pressure t sup 0).2
          + (check_battery_degradation t store.battery_history
              (sup (check_tire_pressure t sup 0).2)).toList.length))).toList.length ≤ 1 := by
      rcases check_high_speed t store.speed_history
        (sup ((check_tire_pressure t sup 0).2
          + (check_battery_degradation t store.battery_history
              (sup (check_tire_pressure t sup 0).2)).toList.length)) with _ | c <;> simp
    simp only [List.length_append]
    omega

/-! ## C8: analyze is pure up to the freshly generated ids -/

/-- The id-erased tire alerts do not depend on the id source or counter. -/
theorem tireLoop_map_eraseId (ts : String) (sup sup' : ℕ → String) :
    ∀ (entries : List (String × String × ℚ)) (k k' : ℕ),
      (tireLoop ts sup entries k).1.map eraseId
        = (tireLoop ts sup' entries k').1.map eraseId
  | [], _, _ => rfl
  | (sid, label, p) :: rest, k, k' => by
    by_cases hp : p < 25
    · simp only [tireLoop, if_pos hp, List.map_cons]
      rw [tireLoop_map_eraseId ts sup sup' rest (k + 1) (k' + 1)]
      rfl
    · simp only [tireLoop, if_neg hp]
      exact tireLoop_map_eraseId ts sup sup' rest k k'

/-- The id-erased battery alert does not depend on the fresh id. -/
theorem battery_map_eraseId (t : VehicleTelemetry) (hist : List BatteryEntry)
    (fresh fresh' : String) :
    (check_battery_degradation t hist fresh).toList.map eraseId
      = (check_battery_degradation t hist fresh').toList.map eraseId := by
  rcases hist with _ | ⟨oldest, rest⟩
  · rfl
  · by_cases hl : (oldest :: rest).length < 2
    · rw [check_battery_none_of_short t _ fresh hl,
        check_battery_none_of_short t _ fresh' hl]
    · rw [check_battery_eq_of_long t oldest rest fresh (by omega),
        check_battery_eq_of_long t oldest rest fresh' (by omega)]
      by_cases hd : oldest.soc - t.battery.soc > 5
      · rw [if_pos hd, if_pos hd]
        rfl
      · rw [if_neg hd, if_neg hd]

/-- The id-erased speed alert does not depend on the fresh id. -/
theorem speed_map_eraseId (t : VehicleTelemetry) (hist : List SpeedEntry)
    (fresh fresh' : String) :
    (check_high_speed t hist fresh).toList.map eraseId
      = (check_high_speed t hist fresh').toList.map eraseId := by
  by_cases hl : hist.length < 10
  · rw [check_speed_none_of_short t hist fresh hl,
      check_speed_none_of_short t hist fresh' hl]
  · by_cases hall : ∀ e ∈ hist.drop (hist.length - 10), 100 < e.speed
    · rw [check_speed_fires t hist fresh hl hall,
        check_speed_fires t hist fresh' hl hall]
      rfl
    · push_neg at hall
      obtain ⟨e, he, hle⟩ := hall
      rw [check_speed_none_of_low t hist fresh e he hle,
        check_speed_none_of_low t hist fresh' e he hle]

/-- C8 (amended): `HealthAnalyzer` holds no state of its own; `analyze` is a
pure function of (snapshot, store contents, fresh-id source), and after
erasing the freshly generated ids its result depends only on the snapshot and
the store contents. -/
theorem C8_analyze_pure_up_to_ids (t : VehicleTelemetry) (store : DataStore)
    (sup sup' : ℕ → String) :
    (analyze t store sup).map eraseId = (analyze t store sup').map eraseId := by
  have h1 : (check_tire_pressure t sup 0).1.map eraseId
      = (check_tire_pressure t sup' 0).1.map eraseId :=
    tireLoop_map_eraseId t.timestamp sup sup' (tire_map t.tires) 0 0
  have h2 : (check_battery_degradation t store.battery_history
        (sup (check_tire_pressure t sup 0).2)).toList.map eraseId
      = (check_battery_degradation t store.battery_history
        (sup' (check_tire_pressure t sup' 0).2)).toList.map eraseId :=
    battery_map_eraseId t store.battery_history _ _
  have h3 : (check_high_speed t store.speed_history
        (sup ((check_tire_pressure t sup 0).2
          + (check_battery_degradation t store.battery_history
              (sup (check_tire_pressure t sup 0).2)).toList.length))).toList.map eraseId
      = (check_high_speed t store.speed_history
        (sup' ((check_tire_pressure t sup' 0).2
          + (check_battery_degradation t store.battery_history
              (sup' (check_tire_pressure t sup' 0).2)).toList.length))).toList.map eraseId :=
    speed_map_eraseId t store.speed_history _ _
  rw [analyze_decomp t store sup, analyze_decomp t store sup']
  simp only [List.map_append]
  rw [h1, h2, h3]

/-- Counterexample to C8 as stated: with the id source standing for
`uuid.uuid4()` producing different fresh ids in the two calls, the same
snapshot and store yield different alert lists (the ids differ). -/
theorem C8_counterexample :
    analyze
        { timestamp := "ts", speed := 60, battery := { soc := 85 },
          tires := { front_left := 20, front_right := 32,
                     rear_left := 32, rear_right := 32 } }
        { battery_history := [], speed_history := [] }
        (fun _ => "a")
      ≠ analyze
        { timestamp := "ts", speed := 60, battery := { soc := 85 },
          tires := { front_left := 20, front_right := 32,
                     rear_left := 32, rear_right := 32 } }
        { battery_history := [], speed_history := [] }
        (fun _ => "b") := by
  decide

/-! ## C7: start/stop lifecycle no-ops -/

/-- C7: starting an already-running simulator is a no-op that reports the
current tick count and the original start time; stopping an already-stopped
simulator reports "Simulator not running" and changes nothing. -/
theorem C7_start_stop (sim : SimulatorCtl) (now now' : String) :
    (((sim.start now).1.start now').1 = (sim.start now).1
      ∧ ((sim.start now).1.start now').2.running = true
      ∧ ((sim.start now).1.start now').2.tick_count = (sim.start now).1.tick_count
      ∧ ((sim.start now).1.start now').2.start_time
          = (sim.start now).1.simulation.start_time)
    ∧ (sim.running = false →
        sim.stop.1 = sim ∧ sim.stop.2.tick_count = sim.tick_count
          ∧ sim.stop.2.message = "Simulator not running") := by
  have key : ∀ (s : SimulatorCtl), s.running = true →
      s.start now' =
        (s, ⟨true, s.tick_count, s.simulation.start_time,
          "Simulator already running"⟩) := by
    intro s hs
    unfold SimulatorCtl.start
    rw [if_pos hs]
  have hrun : (sim.start now).1.running = true := by
    unfold SimulatorCtl.start
    by_cases h : sim.running
    · rw [if_pos h]
      exact h
    · rw [if_neg h]
  constructor
  · rw [key _ hrun]
    exact ⟨rfl, rfl, rfl, rfl⟩
  · intro hstop
    have hnot : ¬sim.running = true := by simp [hstop]
    unfold SimulatorCtl.stop
    rw [if_pos hnot]
    exact ⟨rfl, rfl, rfl⟩

/-- Witness for C7 on a concrete stopped simulator with 7 completed ticks. -/
theorem C7_witness :
    ((((⟨false, 7, false, ⟨false, 7, none, "stopped"⟩⟩ : SimulatorCtl).start
        "t1").1.start "t2").1
      = ((⟨false, 7, false, ⟨false, 7, none, "stopped"⟩⟩ : SimulatorCtl).start
        "t1").1)
    ∧ ((⟨false, 7, false, ⟨false, 7, none, "stopped"⟩⟩ : SimulatorCtl).stop.1
        = ⟨false, 7, false, ⟨false, 7, none, "stopped"⟩⟩)
    ∧ ((⟨false, 7, false, ⟨false, 7, none, "stopped"⟩⟩ : SimulatorCtl).stop.2.message
        = "Simulator not running") :=
  ⟨(C7_start_stop ⟨false, 7, false, ⟨false, 7, none, "stopped"⟩⟩ "t1" "t2").1.1,
   ((C7_start_stop ⟨false, 7, false, ⟨false, 7, none, "stopped"⟩⟩ "t1" "t2").2 rfl).1,
   ((C7_start_stop ⟨false, 7, false, ⟨false, 7, none, "stopped"⟩⟩ "t1" "t2").2 rfl).2.2⟩

/-! ## C9: the alerts query -/

/-- C9: whenever the `/vehicle/alerts` route accepts a request, it returns the
most recent alerts, most-recent-first (element `i` of the result is element
`length − 1 − i` of the log), and the result length is at most
`min limit 200`. -/
theorem C9_alerts_query (alert_log : List AlertModel) (limit : Option ℤ)
    (res : List AlertModel) (h : routeGetAlerts alert_log limit = some res) :
    res.length ≤ min (limit.getD 50).toNat 200
    ∧ res = alert_log.reverse.take (limit.getD 50).toNat
    ∧ ∀ (i : ℕ) (hi : i < res.length)
        (hj : alert_log.length - 1 - i < alert_log.length),
        res.get ⟨i, hi⟩ = alert_log.get ⟨alert_log.length - 1 - i, hj⟩ := by
  unfold routeGetAlerts at h
  by_cases hok : 1 ≤ limit.getD 50 ∧ limit.getD 50 ≤ 200
  · rw [if_pos hok] at h
    have hres : res = alert_log.reverse.take (limit.getD 50).toNat :=
      (Option.some_inj.mp h).symm
    have hlim : (limit.getD 50).toNat ≤ 200 := by omega
    refine ⟨?_, hres, ?_⟩
    · rw [hres, List.length_take, List.length_reverse]
      omega
    · intro i hi hj
      subst hres
      simp only [List.get_eq_getElem, List.getElem_take, List.getElem_reverse]
  · rw [if_neg hok] at h
    exact absurd h (by simp)

/-- Witness for C9: a three-alert log queried with limit 2 returns the last
two alerts, newest first. -/
theorem C9_witness :
    routeGetAlerts
        [mkTireAlert "t1" "u1" "s" "L" 20, mkTireAlert "t2" "u2" "s" "L" 21,
         mkTireAlert "t3" "u3" "s" "L" 22] (some 2)
      = some [mkTireAlert "t3" "u3" "s" "L" 22, mkTireAlert "t2" "u2" "s" "L" 21]
    ∧ ([mkTireAlert "t3" "u3" "s" "L" 22,
        mkTireAlert "t2" "u2" "s" "L" 21].length : ℕ)
      ≤ min ((some (2 : ℤ)).getD 50).toNat 200 :=
  ⟨rfl,
   (C9_alerts_query
      [mkTireAlert "t1" "u1" "s" "L" 20, mkTireAlert "t2" "u2" "s" "L" 21,
       mkTireAlert "t3" "u3" "s" "L" 22] (some 2)
      [mkTireAlert "t3" "u3" "s" "L" 22, mkTireAlert "t2" "u2" "s" "L" 21]
      rfl).1⟩

/-! ## Helper lemmas about rounding and clamping -/

/-- Any integer lower bound of `q` bounds its half-even rounding. -/
theorem le_roundHalfEven (a : ℤ) (q : ℚ) (h : (a : ℚ) ≤ q) :
    a ≤ roundHalfEven q := by
  have hf : a ≤ q.floor := Rat.le_floor.mpr h
  unfold roundHalfEven
  dsimp only
  split_ifs <;> omega

/-- Any integer upper bound of `q` bounds its half-even rounding. -/
theorem roundHalfEven_le (b : ℤ) (q : ℚ) (h : q ≤ (b : ℚ)) :
    roundHalfEven q ≤ b := by
  have hfq : (q.floor : ℚ) ≤ q := Rat.le_floor.mp (le_refl q.floor)
  have hfb : q.floor ≤ b := by exact_mod_cast hfq.trans h
  have hlt : ¬(q - q.floor < 1/2) → q.floor < b := by
    intro hr
    have h1 : (q.floor : ℚ) < q := by
      push_neg at hr
      linarith
    exact_mod_cast h1.trans_le h
  unfold roundHalfEven
  dsimp only
  split_ifs with h1 h2 h3
  · exact hfb
  · have := hlt h1
    omega
  · exact hfb
  · have := hlt h1
    omega

/-- Integer bounds survive Python's round-to-one-decimal. -/
theorem pyRound1_bounds (a b : ℤ) (x : ℚ) (h1 : (a : ℚ) ≤ x) (h2 : x ≤ (b : ℚ)) :
    (a : ℚ) ≤ pyRound1 x ∧ pyRound1 x ≤ (b : ℚ) := by
  have hlo : 10 * a ≤ roundHalfEven (10 * x) := by
    apply le_roundHalfEven
    push_cast
    linarith
  have hhi : roundHalfEven (10 * x) ≤ 10 * b := by
    apply roundHalfEven_le
    push_cast
    linarith
  have hlo' : (10 * a : ℚ) ≤ (roundHalfEven (10 * x) : ℚ) := by exact_mod_cast hlo
  have hhi' : (roundHalfEven (10 * x) : ℚ) ≤ (10 * b : ℚ) := by exact_mod_cast hhi
  unfold pyRound1
  constructor
  · rw [le_div_iff₀ (by norm_num : (0:ℚ) < 10)]
    linarith
  · rw [div_le_iff₀ (by norm_num : (0:ℚ) < 10)]
    linarith

/-- The `max lo (min hi x)` clamp lands in `[lo, hi]`. -/
theorem clamp_bounds (lo hi x : ℚ) (h : lo ≤ hi) :
    lo ≤ max lo (min hi x) ∧ max lo (min hi x) ≤ hi :=
  ⟨le_max_left _ _, max_le h (min_le_left _ _)⟩

/-! ## Bounds of the simulator sections -/

/-- The speed section stays in [0, 140] whenever the plateau draw is in its
`random.uniform(105, 130)` range. -/
theorem newSpeed_bounds (s : SimState) (d : TickDraws)
    (h105 : 105 ≤ d.plateauSpeed) (h130 : d.plateauSpeed ≤ 130) :
    0 ≤ newSpeed s d ∧ newSpeed s d ≤ 140 := by
  unfold newSpeed
  by_cases h : plateauActive s.tick_count
  · simp only [h, if_true]
    constructor <;> linarith
  · simp only [h, if_false]
    exact clamp_bounds 0 140 _ (by norm_num)

/-- The battery section always clamps to [5, 100]. -/
theorem newSoc_bounds (s : SimState) (d : TickDraws) :
    5 ≤ newSoc s d ∧ newSoc s d ≤ 100 := by
  unfold newSoc
  exact clamp_bounds 5 100 _ (by norm_num)

/-- The tire section always clamps all four pressures to [15, 40]. -/
theorem newTires_bounds (s : SimState) (d : TickDraws) :
    (15 ≤ (newTires s d).1 ∧ (newTires s d).1 ≤ 40)
    ∧ (15 ≤ (newTires s d).2.1 ∧ (newTires s d).2.1 ≤ 40)
    ∧ (15 ≤ (newTires s d).2.2.1 ∧ (newTires s d).2.2.1 ≤ 40)
    ∧ (15 ≤ (newTires s d).2.2.2 ∧ (newTires s d).2.2.2 ≤ 40) := by
  unfold newTires
  refine ⟨clamp_bounds 15 40 _ (by norm_num), clamp_bounds 15 40 _ (by norm_num),
    clamp_bounds 15 40 _ (by norm_num), clamp_bounds 15 40 _ (by norm_num)⟩

/-- One generated snapshot satisfies the clamp invariant under valid draws. -/
theorem generate_telemetry_bounds (s : SimState) (d : TickDraws)
    (hd : ValidDraws d) : SnapshotBounds (generate_telemetry s d).2 := by
  obtain ⟨_, _, _, _, h105, h130, _⟩ := hd
  have hs := newSpeed_bounds s d h105 h130
  have hb := newSoc_bounds s d
  have ht := newTires_bounds s d
  have hS := pyRound1_bounds 0 140 (newSpeed s d) (by exact_mod_cast hs.1)
    (by exact_mod_cast hs.2)
  have hB := pyRound1_bounds 5 100 (newSoc s d) (by exact_mod_cast hb.1)
    (by exact_mod_cast hb.2)
  have hT1 := pyRound1_bounds 15 40 (newTires s d).1 (by exact_mod_cast ht.1.1)
    (by exact_mod_cast ht.1.2)
  have hT2 := pyRound1_bounds 15 40 (newTires s d).2.1 (by exact_mod_cast ht.2.1.1)
    (by exact_mod_cast ht.2.1.2)
  have hT3 := pyRound1_bounds 15 40 (newTires s d).2.2.1 (by exact_mod_cast ht.2.2.1.1)
    (by exact_mod_cast ht.2.2.1.2)
  have hT4 := pyRound1_bounds 15 40 (newTires s d).2.2.2 (by exact_mod_cast ht.2.2.2.1)
    (by exact_mod_cast ht.2.2.2.2)
  unfold SnapshotBounds
  refine ⟨?_, ?_, ?_, ?_, ?_, ?_, ?_, ?_, ?_, ?_, ?_, ?_⟩
  · exact_mod_cast hS.1
  · exact_mod_cast hS.2
  · exact_mod_cast hB.1
  · exact_mod_cast hB.2
  · exact_mod_cast hT1.1
  · exact_mod_cast hT1.2
  · exact_mod_cast hT2.1
  · exact_mod_cast hT2.2
  · exact_mod_cast hT3.1
  · exact_mod_cast hT3.2
  · exact_mod_cast hT4.1
  · exact_mod_cast hT4.2

/-! ## C5: the clamp invariant -/

/-- C5: from any simulator state, any run of the simulation loop whose random
draws lie in their documented ranges emits only snapshots with speed in
[0, 140], SoC in [5, 100] and all four tire pressures in [15, 40], fault
injections and plateau ticks included. -/
theorem C5_clamp_invariant :
    ∀ (ds : List TickDraws) (s : SimState), (∀ d ∈ ds, ValidDraws d) →
      ∀ t ∈ runTicks s ds, SnapshotBounds t
  | [], s, hv => by simp [runTicks]
  | d :: ds, s, hv => by
    intro t ht
    simp only [runTicks, List.mem_cons] at ht
    rcases ht with rfl | ht
    · exact generate_telemetry_bounds _ d (hv d (by simp))
    · exact C5_clamp_invariant ds _ (fun d' hd' => hv d' (by simp [hd'])) t ht

/-- Witness for C5: a concrete tick from the initial state, with the rapid
battery drop, a tire blowout and the plateau all firing at once, stays in
bounds. -/
theorem C5_witness :
    ValidDraws
      { flipDraw := 1/100, speedDelta := 3, plateauSpeed := 110,
        socDecay := 1/10, rapidDraw := 1/100, rapidDrop := 8, tempNoise := 1,
        dFl := 1/10, dFr := 0, dRl := 0, dRr := 0, tireDraw := 1/200,
        tireChoice := 0, tireDrop := 15, timestamp := "t1" }
    ∧ SnapshotBounds (simulationTick { initState with tick_count := 49 }
        { flipDraw := 1/100, speedDelta := 3, plateauSpeed := 110,
          socDecay := 1/10, rapidDraw := 1/100, rapidDrop := 8, tempNoise := 1,
          dFl := 1/10, dFr := 0, dRl := 0, dRr := 0, tireDraw := 1/200,
          tireChoice := 0, tireDrop := 15, timestamp := "t1" }).2 :=
  ⟨by decide,
   C5_clamp_invariant
     [{ flipDraw := 1/100, speedDelta := 3, plateauSpeed := 110,
        socDecay := 1/10, rapidDraw := 1/100, rapidDrop := 8, tempNoise := 1,
        dFl := 1/10, dFr := 0, dRl := 0, dRr := 0, tireDraw := 1/200,
        tireChoice := 0, tireDrop := 15, timestamp := "t1" }]
     { initState with tick_count := 49 } (by decide) _ (by simp [runTicks])⟩

/-! ## C6: the speed plateau -/

/-- C6: the plateau override fires exactly on ticks with tick_count > 20 and
tick_count ≡ 0..14 (mod 50); once a plateau block begins it stays active for
at least 10 consecutive ticks; on an active tick the emitted speed is the
(rounded) plateau draw, hence within [105, 130] for valid draws, and on an
inactive tick it is the ordinary clamped random walk. -/
theorem C6_speed_plateau (t i : ℕ) (s : SimState) (d : TickDraws) :
    (plateauActive t = true ↔ (20 < t ∧ t % 50 < 15))
    ∧ (0 < t → plateauActive t = true → plateauActive (t - 1) = false →
        i < 10 → plateauActive (t + i) = true)
    ∧ (plateauActive s.tick_count = true →
        (generate_telemetry s d).2.speed = pyRound1 d.plateauSpeed
        ∧ (ValidDraws d →
            105 ≤ (generate_telemetry s d).2.speed
            ∧ (generate_telemetry s d).2.speed ≤ 130))
    ∧ (plateauActive s.tick_count = false →
        (generate_telemetry s d).2.speed
          = pyRound1 (max 0 (min 140
              (s.speed + d.speedDelta * (newDirection s d : ℚ))))) := by
  refine ⟨?_, ?_, ?_, ?_⟩
  · unfold plateauActive
    simp only [decide_eq_true_eq]
    constructor
    · intro h
      exact ⟨h.2, h.1⟩
    · intro h
      exact ⟨h.2, h.1⟩
  · intro h0 hact hprev hi
    unfold plateauActive at hact hprev ⊢
    simp only [decide_eq_true_eq] at hact ⊢
    simp only [decide_eq_false_iff_not] at hprev
    omega
  · intro hact
    have hsp : (generate_telemetry s d).2.speed = pyRound1 (newSpeed s d) := rfl
    have hns : newSpeed s d = d.plateauSpeed := by
      unfold newSpeed
      simp [hact]
    constructor
    · rw [hsp, hns]
    · intro hv
      obtain ⟨_, _, _, _, h105, h130, _⟩ := hv
      have hres := pyRound1_bounds 105 130 d.plateauSpeed
        (by exact_mod_cast h105) (by exact_mod_cast h130)
      rw [hsp, hns]
      exact ⟨by exact_mod_cast hres.1, by exact_mod_cast hres.2⟩
  · intro hinact
    have hsp : (generate_telemetry s d).2.speed = pyRound1 (newSpeed s d) := rfl
    rw [hsp]
    unfold newSpeed
    simp [hinact]

/-- Witness for C6 at tick 50 (a block start): plateau active there and at
tick 59, and the emitted speed of a concrete plateau tick lies in [105, 130]. -/
theorem C6_witness :
    plateauActive 50 = true
    ∧ plateauActive 59 = true
    ∧ 105 ≤ (generate_telemetry { initState with tick_count := 50 }
        { flipDraw := 1/100, speedDelta := 3, plateauSpeed := 110,
          socDecay := 1/10, rapidDraw := 1/2, rapidDrop := 8, tempNoise := 1,
          dFl := 1/10, dFr := 0, dRl := 0, dRr := 0, tireDraw := 1/2,
          tireChoice := 0, tireDrop := 15, timestamp := "t1" }).2.speed
    ∧ (generate_telemetry { initState with tick_count := 50 }
        { flipDraw := 1/100, speedDelta := 3, plateauSpeed := 110,
          socDecay := 1/10, rapidDraw := 1/2, rapidDrop := 8, tempNoise := 1,
          dFl := 1/10, dFr := 0, dRl := 0, dRr := 0, tireDraw := 1/2,
          tireChoice := 0, tireDrop := 15, timestamp := "t1" }).2.speed ≤ 130 :=
  ⟨(C6_speed_plateau 50 9 initState
      { flipDraw := 1/100, speedDelta := 3, plateauSpeed := 110,
        socDecay := 1/10, rapidDraw := 1/2, rapidDrop := 8, tempNoise := 1,
        dFl := 1/10, dFr := 0, dRl := 0, dRr := 0, tireDraw := 1/2,
        tireChoice := 0, tireDrop := 15, timestamp := "t1" }).1.mpr (by decide),
   (C6_speed_plateau 50 9 initState
      { flipDraw := 1/100, speedDelta := 3, plateauSpeed := 110,
        socDecay := 1/10, rapidDraw := 1/2, rapidDrop := 8, tempNoise := 1,
        dFl := 1/10, dFr := 0, dRl := 0, dRr := 0, tireDraw := 1/2,
        tireChoice := 0, tireDrop := 15, timestamp := "t1" }).2.1
     (by decide) (by decide) (by decide) (by decide),
   (((C6_speed_plateau 50 9 { initState with tick_count := 50 }
      { flipDraw := 1/100, speedDelta := 3, plateauSpeed := 110,
        socDecay := 1/10, rapidDraw := 1/2, rapidDrop := 8, tempNoise := 1,
        dFl := 1/10, dFr := 0, dRl := 0, dRr := 0, tireDraw := 1/2,
        tireChoice := 0, tireDrop := 15, timestamp := "t1" }).2.2.1
     (by decide)).2 (by decide)).1,
   (((C6_speed_plateau 50 9 { initState with tick_count := 50 }
      { flipDraw := 1/100, speedDelta := 3, plateauSpeed := 110,
        socDecay := 1/10, rapidDraw := 1/2, rapidDrop := 8, tempNoise := 1,
        dFl := 1/10, dFr := 0, dRl := 0, dRr := 0, tireDraw := 1/2,
        tireChoice := 0, tireDrop := 15, timestamp := "t1" }).2.2.1
     (by decide)).2 (by decide)).2⟩

/-- Witness for C10 at a concrete input firing all rules. -/
theorem C10_witness :
    (analyze
        { timestamp := "ts", speed := 120, battery := { soc := 70 },
          tires := { front_left := 20, front_right := 32,
                     rear_left := 32, rear_right := 32 } }
        { battery_history := [⟨0, 80⟩, ⟨10, 76⟩],
          speed_history := List.replicate 12 ⟨0, 120⟩ }
        (fun n => toString n)).length ≤ 6 := by
  obtain ⟨ts, b, sp, heq, h4, hb1, hsp1, hta, htb, hts, hsig, h6⟩ :=
    C10_analyze_shape
      { timestamp := "ts", speed := 120, battery := { soc := 70 },
        tires := { front_left := 20, front_right := 32,
                   rear_left := 32, rear_right := 32 } }
      { battery_history := [⟨0, 80⟩, ⟨10, 76⟩],
        speed_history := List.replicate 12 ⟨0, 120⟩ }
      (fun n => toString n)
  exact h6

end VehicleDiagnostics
